import Mathlib

/-!
Verification development for the `send_altitude_cocoos` example application
(`src/main.c`, `src/platform.h`).

The code under `src/` is the composition/bootstrap layer: it creates the
I2C-bus semaphore, the sensor events, the sensor task data, and the three
cocoOS tasks, then starts the scheduler.  The cooperative-scheduler
primitives (counting semaphore, message queue) and the task bodies
(`sensor_task`, `display_task`) live outside `src/`; where a claim depends
on them they are modelled from the specification, and each such definition
carries a doc comment saying so.
-/

namespace SendAltitude

/-! ## Bootstrap embedding of `src/main.c` -/

/-- Task procedures referenced by the application.  `sensor_task` and
`display_task` are the two procedures passed to `task_create` in `main.c`;
`control_task` is the fourth task documented in the file header comment of
`main.c` (lines 13–14) but never created by the code. -/
inductive TaskProc
  | sensor_task
  | display_task
  | control_task
deriving DecidableEq, Repr

/-- Sensor identities returned by `get_temp_sensor()` / `get_gyro_sensor()`. -/
inductive SensorRef
  | tempSensor
  | gyroSensor
deriving DecidableEq, Repr

/-- Data kinds passed to `init_sensor_func` in `sensor_setup`. -/
inductive DataKind
  | TEMP_DATA
  | GYRO_DATA
deriving DecidableEq, Repr

/-- The events created by `sensor_setup` (`tempEvt`, `prevChEvt`, `nextChEvt`). -/
inductive EvtRef
  | tempEvt
  | prevChEvt
  | nextChEvt
deriving DecidableEq, Repr

/-- The task id returned by the `task_create` call for the display task in
`main`; it is the consumer identity stored into both sensor contexts. -/
def display_task_id : Nat := 0

/-- `SensorTaskData` from `sensor.h` as used in `main.c`: the fields written
by `sensor_setup` are `display_task_id` and `sensor`. -/
structure SensorTaskData where
  display_task_id : Nat
  sensor : SensorRef
deriving DecidableEq, Repr

/-- The task-data argument of a `task_create` call: either one of the two
static `SensorTaskData` variables, or the display object from `get_display()`. -/
inductive TaskDataArg
  | sensorData (d : SensorTaskData)
  | displayData
deriving DecidableEq, Repr

/-- Stands for `sizeof(DisplayMsg)` in the display-task `task_create` call;
only the fact that the display task is created with a message queue matters
to the claims, not the byte size of a message. -/
def sizeofDisplayMsg : Nat := 1

/-- One `task_create(proc, data, priority, pool, poolSize, msgSize)` call.
`hasPool` records whether the pool pointer argument was non-null. -/
structure TaskCreate where
  proc : TaskProc
  data : TaskDataArg
  priority : Nat
  hasPool : Bool
  poolSize : Nat
  msgSize : Nat
deriving DecidableEq, Repr

/-- `tempSensorTaskData` after `sensor_setup(display_task_id)` ran
(`main.c` lines 125–127). -/
def tempSensorTaskData : SensorTaskData :=
  { display_task_id := display_task_id, sensor := .tempSensor }

/-- `gyroSensorTaskData` after `sensor_setup(display_task_id)` ran
(`main.c` lines 130–132). -/
def gyroSensorTaskData : SensorTaskData :=
  { display_task_id := display_task_id, sensor := .gyroSensor }

/-- `#define displayMsgPoolSize 5` (`main.c` line 144). -/
def displayMsgPoolSize : Nat := 5

/-- The display-task creation in `main` (`main.c` lines 153–159):
`task_create(display_task, get_display(), 100, displayMsgPool,
displayMsgPoolSize, sizeof(DisplayMsg))`. -/
def displayTaskCreate : TaskCreate :=
  { proc := .display_task, data := .displayData, priority := 100,
    hasPool := true, poolSize := displayMsgPoolSize, msgSize := sizeofDisplayMsg }

/-- The temp-sensor task creation in `sensor_setup` (`main.c` lines 137–138):
`task_create(sensor_task, &tempSensorTaskData, 10, 0, 0, 0)`. -/
def tempTaskCreate : TaskCreate :=
  { proc := .sensor_task, data := .sensorData tempSensorTaskData, priority := 10,
    hasPool := false, poolSize := 0, msgSize := 0 }

/-- The gyro-sensor task creation in `sensor_setup` (`main.c` lines 139–140):
`task_create(sensor_task, &gyroSensorTaskData, 20, 0, 0, 0)`. -/
def gyroTaskCreate : TaskCreate :=
  { proc := .sensor_task, data := .sensorData gyroSensorTaskData, priority := 20,
    hasPool := false, poolSize := 0, msgSize := 0 }

/-- One observable bootstrap action performed by `main` and its helpers
`system_setup` and `sensor_setup` (hardware/timer glue such as
`arduino_setup` and `arduino_start_timer` is platform glue outside the
specified core and carries no claim-relevant state). -/
inductive BootEvent
  | initDisplay
  | semCreate (maxCount initValue : Nat)
  | osInit
  | eventCreate (e : EvtRef)
  | sensorInit (s : SensorRef) (kind : DataKind) (evt : Option EvtRef) (pollIntervalMillisec : Nat)
  | taskCreate (t : TaskCreate)
  | osStart
deriving DecidableEq, Repr

/-- The bootstrap sequence executed by `main()` in `src/main.c`, in program
order: `system_setup` (init display, create the I2C semaphore with
`maxCount = 10`, `initValue = 1`), `os_init`, creation of the display task,
`sensor_setup` (three events, two sensor inits, two sensor tasks), then
`os_start`. -/
def bootSequence : List BootEvent :=
  [ .initDisplay,
    .semCreate 10 1,
    .osInit,
    .taskCreate displayTaskCreate,
    .eventCreate .tempEvt,
    .eventCreate .prevChEvt,
    .eventCreate .nextChEvt,
    .sensorInit .tempSensor .TEMP_DATA (some .tempEvt) 500,
    .sensorInit .gyroSensor .GYRO_DATA none 500,
    .taskCreate tempTaskCreate,
    .taskCreate gyroTaskCreate,
    .osStart ]

/-- Selects the `task_create` bootstrap events. -/
def isTaskCreate : BootEvent → Bool
  | .taskCreate _ => true
  | _ => false

/-- Selects the semaphore-creation bootstrap event. -/
def isSemCreate : BootEvent → Bool
  | .semCreate _ _ => true
  | _ => false

/-- Selects the `os_start` bootstrap event. -/
def isOsStart : BootEvent → Bool
  | .osStart => true
  | _ => false

/-- The tasks created during bootstrap, in creation order. -/
def createdTasks : List TaskCreate :=
  bootSequence.filterMap fun e =>
    match e with
    | .taskCreate t => some t
    | _ => none

/-- Modelled from the spec: scheduler precedence of the external cocoOS
runtime — "lower numeric priority value = higher precedence in this design"
(§5).  The scheduler itself is outside `src/`. -/
def higherPrecedence (a b : TaskCreate) : Prop :=
  a.priority < b.priority

/-! ## Counting-semaphore model (Bus Lock)

The cocoOS counting semaphore (`sem_counting_create` / acquire / release) is
part of the external runtime, not of `src/`. -/

/-- Modelled from the spec: the state of the Bus Lock counting primitive —
"State: available count and a wait queue of blocked tasks" (§3), with
`holders` recording which tasks currently hold the lock (with multiplicity)
so that a matching release can be expressed. -/
structure SemState where
  count : Int
  holders : List Nat
deriving DecidableEq, Repr

/-- An acquire or release attempt by a task, identified by a task id. -/
inductive SemOp
  | acquire (t : Nat)
  | release (t : Nat)
deriving DecidableEq, Repr

/-- Modelled from the spec: one acquire/release transition of the counting
lock (§6: "acquire(handle) blocks if unavailable; release(handle)"; §3:
"count is decremented only by successful acquire and incremented only by
matching release; acquire/release must be strictly paired").  A blocked
acquire and an unmatched release leave the state unchanged. -/
def semStep (s : SemState) : SemOp → SemState
  | .acquire t => if 0 < s.count then { count := s.count - 1, holders := t :: s.holders } else s
  | .release t => if t ∈ s.holders then { count := s.count + 1, holders := s.holders.erase t } else s

/-- Runs a sequence of acquire/release operations from a starting state. -/
def semRun (s : SemState) (ops : List SemOp) : SemState :=
  ops.foldl semStep s

/-- `sem_counting_create(10, 1)` in `system_setup` (`main.c` lines 110–112):
the maximum count configured for the I2C semaphore. -/
def i2cSemMaxCount : Nat := 10

/-- The initial state of the I2C semaphore: available count `initValue = 1`,
no holder (`main.c` lines 111–112). -/
def i2cSemaphore : SemState :=
  { count := 1, holders := [] }

theorem semStep_invariant (s : SemState) (op : SemOp) (h0 : 0 ≤ s.count)
    (hsum : s.count + s.holders.length = c) :
    0 ≤ (semStep s op).count ∧ (semStep s op).count + (semStep s op).holders.length = c := by
  cases op with
  | acquire t =>
    by_cases hc : 0 < s.count
    · simp only [semStep, if_pos hc, List.length_cons]
      constructor
      · omega
      · push_cast
        omega
    · simpa [semStep, if_neg hc] using ⟨h0, hsum⟩
  | release t =>
    by_cases hm : t ∈ s.holders
    · simp only [semStep, if_pos hm]
      have hlen : (s.holders.erase t).length = s.holders.length - 1 :=
        List.length_erase_of_mem hm
      have hpos : 1 ≤ s.holders.length := List.length_pos.mpr (List.ne_nil_of_mem hm)
      rw [hlen]
      constructor
      · omega
      · omega
    · simpa [semStep, if_neg hm] using ⟨h0, hsum⟩

theorem semRun_invariant (ops : List SemOp) (s : SemState) (h0 : 0 ≤ s.count)
    (hsum : s.count + s.holders.length = c) :
    0 ≤ (semRun s ops).count ∧ (semRun s ops).count + (semRun s ops).holders.length = c := by
  induction ops generalizing s with
  | nil => exact ⟨h0, hsum⟩
  | cons op rest ih =>
    have hstep := semStep_invariant s op h0 hsum
    simpa [semRun, List.foldl_cons] using ih (semStep s op) hstep.1 hstep.2

/-! ## Sensor Task Procedure model

The shared task body `sensor_task` is part of this repository but not under
`src/`; `src/main.c` only creates the two tasks running it. -/

/-- One observable action of a Sensor Task Procedure activation. -/
inductive SensorAction
  | waitNotify
  | checkData (fresh : Bool)
  | acquireBus
  | readSensor (ok : Bool)
  | releaseBus
  | publish
deriving DecidableEq, Repr

/-- Modelled from the spec: the bus-access portion of one sensor cycle —
steps 3–6 of §4.2: acquire the Bus Lock, call `read()`, "Release the Bus
Lock unconditionally (must execute even if `read()` signals a failure)",
and publish a message only when the read succeeded (§7 ReadFailure: "skip
publishing a message for that cycle"). -/
def readBlock (readOk : Bool) : List SensorAction :=
  [.acquireBus, .readSensor readOk, .releaseBus] ++ if readOk then [.publish] else []

/-- Modelled from the spec: one activation of the shared Sensor Task
Procedure (§4.2 steps 1–7).  `pollDriven` is the instance's Notification
Binding; `fresh` is what `has_new_data()` returned on a poll-driven wake;
`readOk` is whether `read()` succeeded.  A poll-driven wake with no fresh
data loops back "without side effects" (step 2). -/
def sensorCycle (pollDriven fresh readOk : Bool) : List SensorAction :=
  .waitNotify ::
    (if pollDriven then
      if fresh then .checkData true :: readBlock readOk else [.checkData false]
     else readBlock readOk)

/-- The action trace of a sequence of activations of one Sensor Task
Procedure instance; each input pair gives that cycle's `has_new_data()` and
`read()` outcomes. -/
def sensorRun (pollDriven : Bool) (inputs : List (Bool × Bool)) : List SensorAction :=
  (inputs.map fun i => sensorCycle pollDriven i.1 i.2).flatten

/-- Selects the Bus Lock / bus-transfer actions of a trace. -/
def isBusAction : SensorAction → Bool
  | .acquireBus => true
  | .readSensor _ => true
  | .releaseBus => true
  | _ => false

/-- The Bus Lock / bus-transfer subtrace of a sensor trace. -/
def busTrace (tr : List SensorAction) : List SensorAction :=
  tr.filter isBusAction

/-- The cycles of an activation sequence that reach the bus (step 3):
every cycle except a poll-driven wake whose `has_new_data()` was false;
each is represented by its `read()` outcome. -/
def busCycles (pollDriven : Bool) (inputs : List (Bool × Bool)) : List Bool :=
  inputs.filterMap fun i => if pollDriven && !i.1 then none else some i.2

/-- Counts the messages published in a trace. -/
def publishCount (tr : List SensorAction) : Nat :=
  tr.countP fun a => a = .publish

theorem busTrace_sensorRun (pollDriven : Bool) (inputs : List (Bool × Bool)) :
    busTrace (sensorRun pollDriven inputs) =
      ((busCycles pollDriven inputs).map
        fun r => [.acquireBus, .readSensor r, .releaseBus]).flatten := by
  induction inputs with
  | nil => rfl
  | cons i rest ih =>
    obtain ⟨fresh, readOk⟩ := i
    cases pollDriven with
    | false =>
      cases readOk with
      | false =>
        simpa [sensorRun, sensorCycle, readBlock, busCycles, busTrace, isBusAction,
          List.filter_append] using ih
      | true =>
        simpa [sensorRun, sensorCycle, readBlock, busCycles, busTrace, isBusAction,
          List.filter_append] using ih
    | true =>
      cases fresh with
      | false =>
        simpa [sensorRun, sensorCycle, busCycles, busTrace, isBusAction,
          List.filter_append] using ih
      | true =>
        cases readOk with
        | false =>
          simpa [sensorRun, sensorCycle, readBlock, busCycles, busTrace, isBusAction,
            List.filter_append] using ih
        | true =>
          simpa [sensorRun, sensorCycle, readBlock, busCycles, busTrace, isBusAction,
            List.filter_append] using ih

/-! ## Display message-queue model

The cocoOS message queue (`msg_post` / `msg_receive`) is part of the
external runtime, and `display_task` is not under `src/`; `src/main.c`
contributes the queue's backing pool `displayMsgPool[displayMsgPoolSize]`. -/

/-- Modelled from the spec: a `DisplayMessage` (§3) — `kind` tags the
producing sensor/data type, `value` the measured quantity, `source_task`
the identity of the producing task. -/
structure DisplayMsg where
  kind : Nat
  value : Int
  source_task : Nat
deriving DecidableEq, Repr

/-- A producer enqueue attempt or a Display Task dequeue. -/
inductive QueueOp
  | post (m : DisplayMsg)
  | receive
deriving DecidableEq, Repr

/-- A queue execution: the bounded FIFO buffer plus the history of messages
successfully enqueued (`accepted`, in enqueue order) and of messages
dequeued by the consumer (`delivered`, in dequeue order). -/
structure QueueExec where
  capacity : Nat
  buffer : List DisplayMsg
  accepted : List DisplayMsg
  delivered : List DisplayMsg
deriving DecidableEq, Repr

/-- Modelled from the spec: one step of the bounded message queue (§4.4,
§7 ResourceExhausted).  A post onto a full queue does not insert (whether
the producer then blocks or the message is dropped, no message enters a
full queue); a receive on an empty queue leaves the consumer waiting. -/
def queueStep (e : QueueExec) : QueueOp → QueueExec
  | .post m =>
      if e.buffer.length < e.capacity then
        { e with buffer := e.buffer ++ [m], accepted := e.accepted ++ [m] }
      else e
  | .receive =>
      match e.buffer with
      | [] => e
      | m :: rest => { e with buffer := rest, delivered := e.delivered ++ [m] }

/-- Runs a sequence of queue operations on an initially empty queue of the
given capacity. -/
def queueRun (cap : Nat) (ops : List QueueOp) : QueueExec :=
  ops.foldl queueStep { capacity := cap, buffer := [], accepted := [], delivered := [] }

theorem queueStep_capacity (e : QueueExec) (op : QueueOp) :
    (queueStep e op).capacity = e.capacity := by
  cases op with
  | post m =>
    by_cases h : e.buffer.length < e.capacity
    · simp [queueStep, if_pos h]
    · simp [queueStep, if_neg h]
  | receive =>
    cases hb : e.buffer with
    | nil => simp [queueStep, hb]
    | cons m rest => simp [queueStep, hb]

theorem queueStep_invariant (e : QueueExec) (op : QueueOp)
    (hlen : e.buffer.length ≤ e.capacity)
    (hhist : e.delivered ++ e.buffer = e.accepted) :
    (queueStep e op).buffer.length ≤ (queueStep e op).capacity ∧
      (queueStep e op).delivered ++ (queueStep e op).buffer = (queueStep e op).accepted := by
  cases op with
  | post m =>
    by_cases h : e.buffer.length < e.capacity
    · refine ⟨?_, ?_⟩
      · simp only [queueStep, if_pos h, List.length_append, List.length_cons,
          List.length_nil]
        omega
      · simp only [queueStep, if_pos h]
        rw [← List.append_assoc, hhist]
    · exact ⟨by simpa [queueStep, if_neg h] using hlen,
        by simpa [queueStep, if_neg h] using hhist⟩
  | receive =>
    cases hb : e.buffer with
    | nil => exact ⟨by simp [queueStep, hb],
        by simpa [queueStep, hb] using hhist⟩
    | cons m rest =>
      refine ⟨?_, ?_⟩
      · have : rest.length ≤ e.buffer.length := by simp [hb]
        simpa [queueStep, hb] using le_trans this hlen
      · simp only [queueStep, hb]
        rw [List.append_assoc]
        simpa [hb] using hhist

theorem queueRun_invariant (cap : Nat) (ops : List QueueOp) :
    (queueRun cap ops).capacity = cap ∧
      (queueRun cap ops).buffer.length ≤ cap ∧
      (queueRun cap ops).delivered ++ (queueRun cap ops).buffer = (queueRun cap ops).accepted := by
  suffices h : ∀ (e : QueueExec), e.buffer.length ≤ e.capacity →
      e.delivered ++ e.buffer = e.accepted →
      (ops.foldl queueStep e).capacity = e.capacity ∧
        (ops.foldl queueStep e).buffer.length ≤ (ops.foldl queueStep e).capacity ∧
        (ops.foldl queueStep e).delivered ++ (ops.foldl queueStep e).buffer =
          (ops.foldl queueStep e).accepted by
    have hbase := h { capacity := cap, buffer := [], accepted := [], delivered := [] }
      (by simp) (by simp)
    exact ⟨hbase.1, by simpa [queueRun, hbase.1] using hbase.2.1,
      by simpa [queueRun] using hbase.2.2⟩
  induction ops with
  | nil => intro e h1 h2; exact ⟨rfl, h1, h2⟩
  | cons op rest ih =>
    intro e h1 h2
    have hs := queueStep_invariant e op h1 h2
    have hc := queueStep_capacity e op
    have := ih (queueStep e op) (hc ▸ hs.1) hs.2
    exact ⟨by simpa [hc] using this.1, this.2.1, this.2.2⟩

theorem queueStep_zero_fixed (e : QueueExec) (op : QueueOp)
    (hcap : e.capacity = 0) (hbuf : e.buffer = []) : queueStep e op = e := by
  cases op with
  | post m => simp [queueStep, hcap, hbuf]
  | receive => simp [queueStep, hbuf]

theorem queueRun_zero (ops : List QueueOp) :
    queueRun 0 ops = { capacity := 0, buffer := [], accepted := [], delivered := [] } := by
  suffices h : ∀ (e : QueueExec), e.capacity = 0 → e.buffer = [] →
      ops.foldl queueStep e = e by
    simpa [queueRun] using h { capacity := 0, buffer := [], accepted := [], delivered := [] }
      rfl rfl
  induction ops with
  | nil => intro e _ _; rfl
  | cons op rest ih =>
    intro e hcap hbuf
    rw [List.foldl_cons, queueStep_zero_fixed e op hcap hbuf, ih e hcap hbuf]

/-- Selects the `read()` actions of a sensor trace. -/
def isRead : SensorAction → Bool
  | .readSensor _ => true
  | _ => false

/-- Selects the Bus Lock releases of a sensor trace. -/
def isRelease : SensorAction → Bool
  | .releaseBus => true
  | _ => false

/-- The bus subtrace consisting of one acquire–read–release triple per
bus-reaching cycle. -/
def acquireReadRelease (rs : List Bool) : List SensorAction :=
  (rs.map fun r => [.acquireBus, .readSensor r, .releaseBus]).flatten

theorem countP_acquireReadRelease (rs : List Bool) :
    (acquireReadRelease rs).countP isRead = rs.length ∧
      (acquireReadRelease rs).countP isRelease = rs.length := by
  induction rs with
  | nil => exact ⟨rfl, rfl⟩
  | cons r rest ih =>
    refine ⟨?_, ?_⟩
    · simpa [acquireReadRelease, List.countP_cons, isRead] using ih.1
    · simpa [acquireReadRelease, List.countP_cons, isRelease] using ih.2

theorem countP_busTrace (tr : List SensorAction) :
    (busTrace tr).countP isRead = tr.countP isRead ∧
      (busTrace tr).countP isRelease = tr.countP isRelease := by
  constructor
  · rw [busTrace, List.countP_filter]
    congr 1
    funext a
    cases a <;> rfl
  · rw [busTrace, List.countP_filter]
    congr 1
    funext a
    cases a <;> rfl

theorem sensorRun_append (pollDriven : Bool) (l₁ l₂ : List (Bool × Bool)) :
    sensorRun pollDriven (l₁ ++ l₂) =
      sensorRun pollDriven l₁ ++ sensorRun pollDriven l₂ := by
  simp [sensorRun]

theorem publishCount_idle (n : Nat) :
    publishCount ((List.replicate n
      [SensorAction.waitNotify, SensorAction.checkData false]).flatten) = 0 := by
  induction n with
  | zero => rfl
  | succ m ih =>
    rw [List.replicate_succ, List.flatten_cons]
    simp only [publishCount, List.countP_append] at ih ⊢
    rw [ih]
    rfl

/-! ## Claim theorems -/

/-- C1: in every activation sequence of a Sensor Task Procedure instance
(any notification binding, any `has_new_data()` and `read()` outcomes), the
Bus Lock / bus subtrace is exactly one acquire–read–release triple per
bus-reaching cycle — so every read, successful or failed, is preceded by
exactly one acquire and followed by exactly one release before that task's
next read — and in the whole trace the number of reads and the number of
releases both equal the number of bus-reaching cycles (no double-acquire,
no leaked hold, release on the failure path as well). -/
theorem c1_read_release_paired (pollDriven : Bool) (inputs : List (Bool × Bool)) :
    busTrace (sensorRun pollDriven inputs) = acquireReadRelease (busCycles pollDriven inputs) ∧
      (sensorRun pollDriven inputs).countP isRead = (busCycles pollDriven inputs).length ∧
      (sensorRun pollDriven inputs).countP isRelease = (busCycles pollDriven inputs).length := by
  have hbus := busTrace_sensorRun pollDriven inputs
  refine ⟨hbus, ?_, ?_⟩
  · rw [← (countP_busTrace (sensorRun pollDriven inputs)).1, hbus]
    exact (countP_acquireReadRelease _).1
  · rw [← (countP_busTrace (sensorRun pollDriven inputs)).2, hbus]
    exact (countP_acquireReadRelease _).2

/-- C2: for every sequence of interleaved acquire/release operations on the
I2C Bus Lock (created `sem_counting_create(10, 1)` in `system_setup`), the
available count never goes negative and never exceeds the configured
maximum; moreover any step that changes the count is either a successful
acquire decrementing it by one or a matching release incrementing it by
one. -/
theorem c2_busLock_count_invariant :
    (∀ ops : List SemOp, 0 ≤ (semRun i2cSemaphore ops).count ∧
      (semRun i2cSemaphore ops).count ≤ (i2cSemMaxCount : Int)) ∧
    (∀ (s : SemState) (op : SemOp), (semStep s op).count ≠ s.count →
      ((semStep s op).count = s.count - 1 ∧ ∃ t, op = SemOp.acquire t ∧ 0 < s.count) ∨
      ((semStep s op).count = s.count + 1 ∧ ∃ t, op = SemOp.release t ∧ t ∈ s.holders)) := by
  constructor
  · intro ops
    have h := semRun_invariant (c := 1) ops i2cSemaphore (by norm_num [i2cSemaphore]) (by
      simp [i2cSemaphore])
    have hlen : (0 : Int) ≤ (semRun i2cSemaphore ops).holders.length := by positivity
    refine ⟨h.1, ?_⟩
    have := h.2
    simp only [i2cSemMaxCount]
    omega
  · intro s op hne
    cases op with
    | acquire t =>
      by_cases hc : 0 < s.count
      · exact Or.inl ⟨by simp [semStep, if_pos hc], t, rfl, hc⟩
      · exact absurd (by simp [semStep, if_neg hc]) hne
    | release t =>
      by_cases hm : t ∈ s.holders
      · exact Or.inr ⟨by simp [semStep, if_pos hm], t, rfl, hm⟩
      · exact absurd (by simp [semStep, if_neg hm]) hne

/-- Witness for C2: a successful acquire from the initial state of the I2C
semaphore changes the count, and the change is classified as a decrement by
a successful acquire. -/
theorem c2_busLock_count_invariant_witness :
    ((semStep { count := 1, holders := [] } (SemOp.acquire 3)).count =
        ({ count := 1, holders := [] } : SemState).count - 1 ∧
      ∃ t, SemOp.acquire 3 = SemOp.acquire t ∧
        0 < ({ count := 1, holders := [] } : SemState).count) ∨
    ((semStep { count := 1, holders := [] } (SemOp.acquire 3)).count =
        ({ count := 1, holders := [] } : SemState).count + 1 ∧
      ∃ t, SemOp.acquire 3 = SemOp.release t ∧
        t ∈ ({ count := 1, holders := [] } : SemState).holders) :=
  c2_busLock_count_invariant.2 { count := 1, holders := [] } (SemOp.acquire 3) (by decide)

/-- C3: during bootstrap the I2C Bus Lock is created, by the one semaphore
creation of the boot sequence, as `sem_counting_create(10, 1)` — initial
available count 1, bounded queue depth 10 — and this happens strictly
before any `task_create` and before `os_start` (so before any task runs);
with initial count 1 the semaphore model admits at most one concurrent
holder under every operation sequence. -/
theorem c3_busLock_created_at_bootstrap :
    bootSequence.filter isSemCreate = [BootEvent.semCreate 10 1] ∧
      bootSequence.findIdx isSemCreate < bootSequence.findIdx isTaskCreate ∧
      bootSequence.findIdx isSemCreate < bootSequence.findIdx isOsStart ∧
      i2cSemaphore.count = 1 ∧ i2cSemMaxCount = 10 ∧
      (∀ ops : List SemOp, (semRun i2cSemaphore ops).holders.length ≤ 1) := by
  refine ⟨by decide, by decide, by decide, rfl, rfl, ?_⟩
  intro ops
  have h := semRun_invariant (c := 1) ops i2cSemaphore (by norm_num [i2cSemaphore]) (by
    simp [i2cSemaphore])
  have h1 := h.1
  have h2 := h.2
  omega

/-- C4: evaluation of the bootstrap at the failing input — the boot
sequence of `main()` — shows the code creates exactly three tasks (display,
then the two sensor tasks) and never creates a Control Task, even though it
creates both channel-change events `prevChEvt` and `nextChEvt`; this
contradicts the claim (and the header comment of `main.c`, which documents
a control task reacting to those events). -/
theorem c4_no_control_task_created :
    createdTasks.map (fun t => t.proc) =
        [TaskProc.display_task, TaskProc.sensor_task, TaskProc.sensor_task] ∧
      createdTasks.filter (fun t => t.proc == TaskProc.control_task) = [] ∧
      BootEvent.eventCreate EvtRef.prevChEvt ∈ bootSequence ∧
      BootEvent.eventCreate EvtRef.nextChEvt ∈ bootSequence ∧
      createdTasks.length = 3 := by
  refine ⟨by decide, by decide, by decide, by decide, by decide⟩

/-- C5: the temperature sensor task is created with priority 10, the gyro
sensor task with priority 20 and the display task with priority 100; so the
temperature task has a strictly lower priority number (higher precedence,
in the spec's lower-number-wins model) than the gyro task, and the display
task is the unique created task whose priority number is maximal. -/
theorem c5_priority_assignment :
    higherPrecedence tempTaskCreate gyroTaskCreate ∧
      tempTaskCreate.priority = 10 ∧ gyroTaskCreate.priority = 20 ∧
      displayTaskCreate.priority = 100 ∧
      createdTasks.filter (fun t => displayTaskCreate.priority ≤ t.priority) =
        [displayTaskCreate] ∧
      displayTaskCreate ∈ createdTasks := by
  refine ⟨?_, rfl, rfl, rfl, by decide, by decide⟩
  unfold higherPrecedence
  decide

/-- C6: for every sequence of queue operations on the display queue, the
messages delivered to the Display Task are exactly an initial segment of
the successfully enqueued messages (delivered ++ still-buffered = accepted);
hence per producer the delivered subsequence is a prefix of that producer's
accepted subsequence (same relative order), every delivered message was
accepted (nothing rendered that was never enqueued), and when the accepted
messages are pairwise distinct no message is delivered twice. -/
theorem c6_display_fifo_per_producer (ops : List QueueOp) :
    ((queueRun displayMsgPoolSize ops).delivered ++ (queueRun displayMsgPoolSize ops).buffer =
        (queueRun displayMsgPoolSize ops).accepted) ∧
      (∀ p : Nat, ∃ rest,
        (queueRun displayMsgPoolSize ops).accepted.filter (fun m => m.source_task == p) =
          (queueRun displayMsgPoolSize ops).delivered.filter (fun m => m.source_task == p) ++
            rest) ∧
      (∀ m : DisplayMsg, m ∈ (queueRun displayMsgPoolSize ops).delivered →
        m ∈ (queueRun displayMsgPoolSize ops).accepted) ∧
      ((queueRun displayMsgPoolSize ops).accepted.Nodup →
        (queueRun displayMsgPoolSize ops).delivered.Nodup) := by
  have hist := (queueRun_invariant displayMsgPoolSize ops).2.2
  refine ⟨hist, ?_, ?_, ?_⟩
  · intro p
    refine ⟨(queueRun displayMsgPoolSize ops).buffer.filter (fun m => m.source_task == p), ?_⟩
    rw [← hist, List.filter_append]
  · intro m hm
    rw [← hist]
    exact List.mem_append_left _ hm
  · intro hnd
    rw [← hist] at hnd
    exact hnd.of_append_left

/-- Witness for C6: on a concrete run (three posts, two receives) the first
posted message is among the accepted ones, and the delivered messages are
pairwise distinct. -/
theorem c6_display_fifo_per_producer_witness :
    ({ kind := 0, value := 25, source_task := 1 } : DisplayMsg) ∈
        (queueRun displayMsgPoolSize
          [QueueOp.post { kind := 0, value := 25, source_task := 1 },
           QueueOp.post { kind := 1, value := 7, source_task := 2 },
           QueueOp.receive,
           QueueOp.post { kind := 0, value := 26, source_task := 1 },
           QueueOp.receive]).accepted ∧
      (queueRun displayMsgPoolSize
          [QueueOp.post { kind := 0, value := 25, source_task := 1 },
           QueueOp.post { kind := 1, value := 7, source_task := 2 },
           QueueOp.receive,
           QueueOp.post { kind := 0, value := 26, source_task := 1 },
           QueueOp.receive]).delivered.Nodup :=
  ⟨(c6_display_fifo_per_producer _).2.2.1 _ (by decide),
    (c6_display_fifo_per_producer _).2.2.2 (by decide)⟩

/-- C7: a poll-driven sensor task whose `has_new_data()` returns false for
N consecutive wakes produces a trace of exactly N wake–check cycles with no
other action (no bus access, no message) and publishes zero messages; when
a cycle with fresh data (and a successful read) follows, exactly one
message is published over the N+1 cycles. -/
theorem c7_poll_idle_then_one_message (N : Nat) (b : Bool) :
    sensorRun true (List.replicate N (false, b)) =
        (List.replicate N [SensorAction.waitNotify, SensorAction.checkData false]).flatten ∧
      publishCount (sensorRun true (List.replicate N (false, b))) = 0 ∧
      publishCount (sensorRun true (List.replicate N (false, b) ++ [(true, true)])) = 1 := by
  have hidle : sensorRun true (List.replicate N (false, b)) =
      (List.replicate N [SensorAction.waitNotify, SensorAction.checkData false]).flatten := by
    induction N with
    | zero => rfl
    | succ n ih =>
      rw [List.replicate_succ, List.replicate_succ, List.flatten_cons,
        show ((false, b) :: List.replicate n (false, b)) =
          [(false, b)] ++ List.replicate n (false, b) from rfl,
        sensorRun_append, ih]
      rfl
  have h1 : publishCount (sensorRun true (List.replicate N (false, b))) = 0 := by
    rw [hidle]
    exact publishCount_idle N
  refine ⟨hidle, h1, ?_⟩
  rw [sensorRun_append]
  simp only [publishCount, List.countP_append] at h1 ⊢
  rw [h1]
  decide

/-- C8: the display task is created with the fixed-capacity pool
`displayMsgPool` of `displayMsgPoolSize = 5` slots as its queue backing
store, and for every sequence of queue operations — including posts against
a full queue — the queue length never exceeds that capacity. -/
theorem c8_display_queue_bounded :
    displayTaskCreate.hasPool = true ∧
      displayTaskCreate.poolSize = displayMsgPoolSize ∧
      displayMsgPoolSize = 5 ∧
      (∀ ops : List QueueOp,
        (queueRun displayMsgPoolSize ops).buffer.length ≤ displayMsgPoolSize) :=
  ⟨rfl, rfl, rfl, fun ops => (queueRun_invariant displayMsgPoolSize ops).2.1⟩

/-- C9: the two sensor tasks are created with the same task procedure
`sensor_task` and with distinct task data, each holding its own sensor
reference (`get_temp_sensor()` vs `get_gyro_sensor()`) and the display
task's id as consumer identity; they are exactly the created tasks running
`sensor_task`. -/
theorem c9_shared_procedure_distinct_context :
    tempTaskCreate.proc = TaskProc.sensor_task ∧
      gyroTaskCreate.proc = TaskProc.sensor_task ∧
      tempTaskCreate.proc = gyroTaskCreate.proc ∧
      tempTaskCreate.data ≠ gyroTaskCreate.data ∧
      tempSensorTaskData.sensor = SensorRef.tempSensor ∧
      gyroSensorTaskData.sensor = SensorRef.gyroSensor ∧
      tempSensorTaskData.sensor ≠ gyroSensorTaskData.sensor ∧
      tempSensorTaskData.display_task_id = display_task_id ∧
      gyroSensorTaskData.display_task_id = display_task_id ∧
      createdTasks.filter (fun t => t.proc == TaskProc.sensor_task) =
        [tempTaskCreate, gyroTaskCreate] := by
  refine ⟨rfl, rfl, rfl, by decide, rfl, rfl, by decide, rfl, rfl, by decide⟩

/-- C10: both sensor tasks are created with the null message-queue
configuration `(0, 0, 0)` — no pool, queue capacity 0, message size 0 — the
display task is the only created task with a non-empty queue, and a
capacity-0 queue accepts and delivers no message under any operation
sequence, so neither sensor task can ever receive a queued message. -/
theorem c10_sensor_tasks_have_no_queue :
    tempTaskCreate.hasPool = false ∧ tempTaskCreate.poolSize = 0 ∧
      tempTaskCreate.msgSize = 0 ∧
      gyroTaskCreate.hasPool = false ∧ gyroTaskCreate.poolSize = 0 ∧
      gyroTaskCreate.msgSize = 0 ∧
      createdTasks.filter (fun t => 0 < t.poolSize) = [displayTaskCreate] ∧
      (∀ ops : List QueueOp, (queueRun 0 ops).accepted = [] ∧
        (queueRun 0 ops).delivered = []) := by
  refine ⟨rfl, rfl, rfl, rfl, rfl, rfl, by decide, ?_⟩
  intro ops
  rw [queueRun_zero]
  exact ⟨rfl, rfl⟩

end SendAltitude
